import Mathlib

/-!
Verification of the core logic of the k6-test-boilerplate repository:
the CRUD-flow state machine (`tests/example/crud-operations.js`), the
response validators (`utils/checks.js`), the HTTP helper functions
(`utils/http-utils.js`, `helpers/common.js`), the environment/token tables
(`config/env.js`), the SLO threshold generators (`config/slo.js`) and the
scenario VU allocation of the orchestrator (`run-all.js`).

Modelling conventions:
* A k6 HTTP response is a status code together with an optional parsed JSON
  body; `none` means the body is not valid JSON, i.e. `res.json()` throws.
* Wall-clock durations (`Date.now()` differences fed into Trend metrics)
  cannot be observed in a pure model; a Trend metric is modelled by the
  number of `add` calls made to it, which is what the claims speak about.
* JavaScript numbers are IEEE-754 doubles; where a claim depends on their
  exact rounding (the scenario VU arithmetic), doubles are modelled exactly
  as dyadic rationals with round-to-nearest-even.
-/

namespace K6Spec

/-- Parsed JSON values (the result of a successful `res.json()`). -/
inductive JsonVal where
  | null
  | bool (b : Bool)
  | num (n : Int)
  | str (s : String)
  | arr (elems : List JsonVal)
  | obj (fields : List (String × JsonVal))

/-- JavaScript truthiness of a JSON value: `null`, `false`, `0` and `""` are
falsy; every array or object (including empty ones) is truthy. -/
def jsTruthy : JsonVal → Bool
  | .null => false
  | .bool b => b
  | .num n => n != 0
  | .str s => s != ""
  | .arr _ => true
  | .obj _ => true

/-- Truthiness of a possibly-undefined value (`none` models `undefined`). -/
def jsTruthyOpt : Option JsonVal → Bool
  | none => false
  | some v => jsTruthy v

/-- Property access `v[k]`: a lookup on an object, `undefined` (`none`) on
everything else.  (In JS, access on `null` throws; every place the claims
touch guards that case or catches the exception, and both roads end in the
same observable result, so it is modelled as `undefined` here.) -/
def jsGet : JsonVal → String → Option JsonVal
  | .obj fields, k => (fields.find? (fun p => p.1 == k)).map (fun p => p.2)
  | _, _ => none

/-- Test whether a possibly-undefined value is an array (`Array.isArray`). -/
def jsIsArrayOpt : Option JsonVal → Bool
  | some (.arr _) => true
  | _ => false

/-- Test whether a value is a non-null, non-array object. -/
def jsIsObj : JsonVal → Bool
  | .obj _ => true
  | _ => false

/-- Value of the `.length` property: defined for arrays and strings,
`undefined` (`none`) otherwise.  A numeric comparison against an undefined
`.length` is `false` in JS, which is how callers below use the `none` case. -/
def jsLength : Option JsonVal → Option Nat
  | some (.arr xs) => some xs.length
  | some (.str s) => some s.length
  | _ => none

/-- Result of the JS `typeof` operator on a possibly-undefined JSON value
(`typeof null`, like arrays and objects, is `"object"`). -/
def jsTypeof : Option JsonVal → String
  | none => "undefined"
  | some .null => "object"
  | some (.bool _) => "boolean"
  | some (.num _) => "number"
  | some (.str _) => "string"
  | some (.arr _) => "object"
  | some (.obj _) => "object"

/-- Logical-or on values as in `a || b`: `a` if truthy, else `b`. -/
def jsOr (a b : Option JsonVal) : Option JsonVal :=
  if jsTruthyOpt a then a else b

/-- A k6 HTTP response: status code plus optional parsed JSON body
(`none` when the body is not valid JSON and `res.json()` would throw). -/
structure Response where
  status : Nat
  jsonBody : Option JsonVal

/-- Embeds `safeJson` from `utils/http-utils.js`: parse the body, returning
the default `null` when parsing fails.  Both the parse failure and a parsed
JSON `null` are falsy at every use site, and `none` models the former. -/
def safeJson (res : Response) : Option JsonVal :=
  res.jsonBody

/-- Embeds `extractId` from `utils/http-utils.js`:
`data ? data[idField] : null` over `safeJson res`. -/
def extractId (res : Response) (idField : String) : Option JsonVal :=
  match safeJson res with
  | some d => if jsTruthy d then jsGet d idField else none
  | none => none

/-- Metric state of one CRUD-flow iteration
(`tests/example/crud-operations.js`).  Trend metrics (`crud_*_duration`) are
modelled by the number of `add` calls, Counter metrics by their value, the
`crud_success_rate` Rate metric by the list of booleans fed to it.  The
`*Calls` fields are instrumentation: how often each operation function was
invoked during the iteration. -/
structure FlowCounters where
  createCount : Nat
  createDur : Nat
  readCount : Nat
  readDur : Nat
  updateCount : Nat
  updateDur : Nat
  deleteCount : Nat
  deleteDur : Nat
  successRate : List Bool
  fullFlowSuccess : Nat
  fullFlowFailed : Nat
  createCalls : Nat
  readCalls : Nat
  updateCalls : Nat
  deleteCalls : Nat
  verifyCalls : Nat

/-- All metrics zero, as at the start of an iteration. -/
def FlowCounters.init : FlowCounters :=
  ⟨0, 0, 0, 0, 0, 0, 0, 0, [], 0, 0, 0, 0, 0, 0, 0⟩

/-- Whether a status code is 2xx, as tested by `res.status >= 200 &&
res.status < 300` throughout the source. -/
def is2xx (s : Nat) : Bool :=
  decide (200 ≤ s ∧ s < 300)

/-- Result of `createResource`: `{ success, id, data }`. -/
structure CreateResult where
  success : Bool
  id : Option JsonVal
  data : Option JsonVal

/-- Result of `readResource` / `updateResource`: `{ success, data }`. -/
structure StepResult where
  success : Bool
  data : Option JsonVal

/-- Embeds `createResource`: POSTs `/products` (response supplied by the
environment), records duration and count metrics, computes `success`, `id`
and `data`, and feeds `success` to the rate metric.  The k6 `check` calls
emit no state the claims mention and the payload is random data, so neither
is modelled. -/
def createResource (res : Response) (t : FlowCounters) :
    CreateResult × FlowCounters :=
  let t := { t with createCalls := t.createCalls + 1,
                    createDur := t.createDur + 1,
                    createCount := t.createCount + 1 }
  let success := is2xx res.status
  let id := extractId res "id"
  let data := safeJson res
  let t := { t with successRate := t.successRate ++ [success] }
  ({ success := success, id := id, data := data }, t)

/-- Embeds `readResource`: on a falsy id it logs and returns failure without
touching any metric; otherwise it GETs the resource, records duration and
count, and succeeds exactly on status 200. -/
def readResource (id : Option JsonVal) (res : Response) (t : FlowCounters) :
    StepResult × FlowCounters :=
  let t := { t with readCalls := t.readCalls + 1 }
  if !jsTruthyOpt id then
    ({ success := false, data := none }, t)
  else
    let t := { t with readDur := t.readDur + 1, readCount := t.readCount + 1 }
    let success := decide (res.status = 200)
    let data := safeJson res
    let t := { t with successRate := t.successRate ++ [success] }
    ({ success := success, data := data }, t)

/-- Embeds `updateResource`: on a falsy id it returns failure without
touching any metric; otherwise it PUTs an updated payload (random data,
not observable) and succeeds on a 2xx status. -/
def updateResource (id : Option JsonVal) (originalData : Option JsonVal)
    (res : Response) (t : FlowCounters) : StepResult × FlowCounters :=
  let _ := originalData
  let t := { t with updateCalls := t.updateCalls + 1 }
  if !jsTruthyOpt id then
    ({ success := false, data := none }, t)
  else
    let t := { t with updateDur := t.updateDur + 1,
                      updateCount := t.updateCount + 1 }
    let success := is2xx res.status
    let data := safeJson res
    let t := { t with successRate := t.successRate ++ [success] }
    ({ success := success, data := data }, t)

/-- Embeds `deleteResource`: on a falsy id it returns failure without
touching any metric; otherwise it DELETEs and succeeds on a 2xx status. -/
def deleteResource (id : Option JsonVal) (res : Response) (t : FlowCounters) :
    Bool × FlowCounters :=
  let t := { t with deleteCalls := t.deleteCalls + 1 }
  if !jsTruthyOpt id then
    (false, t)
  else
    let t := { t with deleteDur := t.deleteDur + 1,
                      deleteCount := t.deleteCount + 1 }
    let success := is2xx res.status
    let t := { t with successRate := t.successRate ++ [success] }
    (success, t)

/-- Embeds `verifyDeleted`: GET the resource again and report whether the
status is 404.  No id guard and no duration/count metric in the source. -/
def verifyDeleted (id : Option JsonVal) (res : Response) (t : FlowCounters) :
    Bool × FlowCounters :=
  let _ := id
  let t := { t with verifyCalls := t.verifyCalls + 1 }
  (decide (res.status = 404), t)

/-- The responses the six HTTP calls of one CRUD iteration would receive:
CREATE, READ, UPDATE, the verification READ, DELETE, and the GET issued by
`verifyDeleted`. -/
structure CrudEnv where
  createRes : Response
  readRes : Response
  updateRes : Response
  verifyReadRes : Response
  deleteRes : Response
  verifyDeleteRes : Response

/-- Embeds the `default` exported function of
`tests/example/crud-operations.js`: the full six-step CRUD flow with its
early return when CREATE fails and its final success/failure accounting.
`sleep`, `console.log` and the trailing `check` emit nothing the claims
mention. -/
def crudDefault (env : CrudEnv) : FlowCounters :=
  let t := FlowCounters.init
  let flowSuccess := true
  let (createResult, t) := createResource env.createRes t
  if !createResult.success then
    { t with fullFlowFailed := t.fullFlowFailed + 1 }
  else
    let createdId := createResult.id
    let resourceData := createResult.data
    let (readResult, t) := readResource createdId env.readRes t
    let flowSuccess := if !readResult.success then false else flowSuccess
    let resourceData := jsOr readResult.data resourceData
    let (updateResult, t) := updateResource createdId resourceData env.updateRes t
    let flowSuccess := if !updateResult.success then false else flowSuccess
    let (verifyUpdateResult, t) := readResource createdId env.verifyReadRes t
    let flowSuccess := if !verifyUpdateResult.success then false else flowSuccess
    let (deleteSuccess, t) := deleteResource createdId env.deleteRes t
    let flowSuccess := if !deleteSuccess then false else flowSuccess
    let (isDeleted, t) := verifyDeleted createdId env.verifyDeleteRes t
    let flowSuccess := if !isDeleted then false else flowSuccess
    if flowSuccess then
      { t with fullFlowSuccess := t.fullFlowSuccess + 1 }
    else
      { t with fullFlowFailed := t.fullFlowFailed + 1 }

/-- All six steps of the flow succeed: CREATE got a 2xx, a truthy id was
extracted, both READs got 200, UPDATE and DELETE got 2xx, and the post-delete
GET got 404. -/
def flowAllOk (env : CrudEnv) : Bool :=
  is2xx env.createRes.status &&
  jsTruthyOpt (extractId env.createRes "id") &&
  decide (env.readRes.status = 200) &&
  is2xx env.updateRes.status &&
  decide (env.verifyReadRes.status = 200) &&
  is2xx env.deleteRes.status &&
  decide (env.verifyDeleteRes.status = 404)

/-- Embeds the semantics of a k6 `check(subject, checksObj)` call: every
predicate of the object is evaluated in insertion order and recorded as an
independent named pass/fail signal; the call returns `true` iff all passed. -/
def k6check {α : Type} (subject : α) (checks : List (String × (α → Bool))) :
    Bool × List (String × Bool) :=
  let results := checks.map (fun c => (c.1, c.2 subject))
  (results.all (fun r => r.2), results)

/-- Embeds `checkStatus` from `utils/checks.js`. -/
def checkStatus (res : Response) (expectedStatus : Nat) :
    Bool × List (String × Bool) :=
  k6check res
    [("status is " ++ toString expectedStatus,
      fun r => decide (r.status = expectedStatus))]

/-- Embeds `checkListResponse` from `utils/checks.js`: if the body is not
valid JSON the exception from `res.json()` is caught, a diagnostic is logged,
and `false` is returned with no check recorded; otherwise three structural
predicates are recorded. -/
def checkListResponse (res : Response) (context : String) :
    Bool × List (String × Bool) :=
  match res.jsonBody with
  | none => (false, [])
  | some data =>
    k6check data
      [(context ++ ": has items array",
        fun d => (jsGet d "items").isSome && jsIsArrayOpt (jsGet d "items")),
       (context ++ ": items not empty",
        fun d => jsTruthyOpt (jsGet d "items") &&
          (match jsLength (jsGet d "items") with
           | some n => decide (n > 0)
           | none => false)),
       (context ++ ": valid page size",
        fun d => jsTruthyOpt (jsGet d "items") &&
          (match jsLength (jsGet d "items") with
           | some n => decide (n ≤ 100)
           | none => false))]

/-- Embeds `checkItemResponse` from `utils/checks.js`: an object-shape check
followed by one presence check per required field; a JSON parse failure is
caught and yields `false`. -/
def checkItemResponse (res : Response) (requiredFields : List String)
    (context : String) : Bool × List (String × Bool) :=
  match res.jsonBody with
  | none => (false, [])
  | some data =>
    k6check data
      ((context ++ ": response is object", fun d => jsIsObj d) ::
        requiredFields.map (fun field =>
          (context ++ ": has " ++ field,
           fun d => (jsGet d field).isSome)))

/-- Embeds `checkFieldTypes` from `utils/checks.js`: for each (field,
expected-type) pair, `"array"` is tested with `Array.isArray` and every other
tag against `typeof`; a JSON parse failure is caught and yields `false`. -/
def checkFieldTypes (res : Response) (fieldTypes : List (String × String))
    (context : String) : Bool × List (String × Bool) :=
  match res.jsonBody with
  | none => (false, [])
  | some data =>
    k6check data
      (fieldTypes.map (fun ft =>
        (context ++ ": " ++ ft.1 ++ " is " ++ ft.2,
         fun d =>
           if ft.2 == "array" then jsIsArrayOpt (jsGet d ft.1)
           else jsTypeof (jsGet d ft.1) == ft.2)))

/-- Embeds `checkListItemStructure` from `utils/checks.js`: `false` when
`items` is missing, not an array, or empty; otherwise the first item is
validated; a JSON parse failure is caught and yields `false`. -/
def checkListItemStructure (res : Response) (itemValidator : JsonVal → Bool)
    (context : String) : Bool × List (String × Bool) :=
  match res.jsonBody with
  | none => (false, [])
  | some data =>
    match jsGet data "items" with
    | some (.arr []) => (false, [])
    | some (.arr (x :: _)) =>
        k6check x [(context ++ ": valid structure", fun i => itemValidator i)]
    | _ => (false, [])

/-- Embeds `checkGetListEndpoint` from `utils/checks.js`: a status check is
always recorded; on status 200 the list-shape check (and, when a validator is
supplied, the first-item check) is additionally folded into `allPassed` with
`&&`; the recorded signals of every sub-check are concatenated in emission
order. -/
def checkGetListEndpoint (res : Response)
    (itemValidator : Option (JsonVal → Bool)) (context : String) :
    Bool × List (String × Bool) :=
  let s := checkStatus res 200
  let allPassed := s.1 && true
  if res.status = 200 then
    let l := checkListResponse res context
    let allPassed := l.1 && allPassed
    match itemValidator with
    | some v =>
        let i := checkListItemStructure res v (context ++ "-item")
        (i.1 && allPassed, s.2 ++ l.2 ++ i.2)
    | none => (allPassed, s.2 ++ l.2)
  else
    (allPassed, s.2)

/-- The `__ENV` overrides consulted by `config/env.js` when building the
`TOKENS` table (`none` when the variable is unset). -/
structure EnvVars where
  tokenUser : Option String
  tokenAdmin : Option String
  tokenSuperUser : Option String

/-- Embeds the `TOKENS` object of `config/env.js` as a lookup: the three
declared roles resolve to their (possibly overridden) token, any other role
name resolves to `undefined` (`none`); no validation of role names occurs. -/
def TOKENS (env : EnvVars) (role : String) : Option String :=
  if role = "USER" then some (env.tokenUser.getD "your-user-token-here")
  else if role = "ADMIN" then some (env.tokenAdmin.getD "your-admin-token-here")
  else if role = "SUPER_USER" then
    some (env.tokenSuperUser.getD "your-super-user-token-here")
  else none

/-- Interpolation of a possibly-undefined string into a template literal:
JS renders `undefined` as the text `"undefined"`. -/
def jsTemplateStr : Option String → String
  | some s => s
  | none => "undefined"

/-- Embeds `getHeaders` from `helpers/common.js`: fixed Accept and
Content-Type headers plus an Authorization header built by template
interpolation of the token lookup. -/
def getHeaders (env : EnvVars) (role : String) : List (String × String) :=
  [("Accept", "application/json"),
   ("Content-Type", "application/json"),
   ("Authorization", "Bearer " ++ jsTemplateStr (TOKENS env role))]

/-- Embeds `getUrl` from `helpers/common.js`, with the resolved
`CURRENT_HOST` passed explicitly. -/
def getUrl (host path : String) : String :=
  host ++ path

/-- Bytes left unescaped by `encodeURIComponent`: ASCII alphanumerics and
`- _ . ! ~ * ' ( )`. -/
def isUnreservedByte (b : Nat) : Bool :=
  decide ((48 ≤ b ∧ b ≤ 57) ∨ (65 ≤ b ∧ b ≤ 90) ∨ (97 ≤ b ∧ b ≤ 122) ∨
    b = 45 ∨ b = 46 ∨ b = 95 ∨ b = 126 ∨ b = 33 ∨ b = 42 ∨ b = 39 ∨
    b = 40 ∨ b = 41)

/-- Uppercase hexadecimal digit for a value below 16. -/
def hexDigit (n : Nat) : Char :=
  if n < 10 then Char.ofNat (48 + n) else Char.ofNat (55 + n)

/-- UTF-8 encoding of one Unicode scalar value, as a list of byte values. -/
def utf8Bytes (c : Char) : List Nat :=
  let n := c.toNat
  if n < 128 then [n]
  else if n < 2048 then [192 + n / 64, 128 + n % 64]
  else if n < 65536 then
    [224 + n / 4096, 128 + (n / 64) % 64, 128 + n % 64]
  else
    [240 + n / 262144, 128 + (n / 4096) % 64, 128 + (n / 64) % 64,
     128 + n % 64]

/-- Embeds JS `encodeURIComponent`: every UTF-8 byte of the string is kept
when unreserved and rendered as `%XX` (uppercase hex) otherwise. -/
def encodeURIComponent (s : String) : String :=
  String.join (((s.data.map utf8Bytes).flatten).map (fun b =>
    if isUnreservedByte b then String.mk [Char.ofNat b]
    else String.mk [Char.ofNat 37, hexDigit (b / 16), hexDigit (b % 16)]))

/-- The `Array.prototype.join(sep)` of a list of strings. -/
def joinSep (sep : String) : List String → String
  | [] => ""
  | [x] => x
  | x :: y :: xs => x ++ sep ++ joinSep sep (y :: xs)

/-- Query parameters as `Object.entries` sees them, in insertion order.
A `none` value models `null` or `undefined` (the two are treated identically
by the filter); a `some` value carries the string coercion that
`encodeURIComponent` receives for any other value. -/
abbrev Params := List (String × Option String)

/-- The encoded `key=value` pair of one surviving parameter. -/
def encodePair (p : String × Option String) : String :=
  encodeURIComponent p.1 ++ "=" ++ encodeURIComponent (p.2.getD "")

/-- The query string built inside `getWithParams`
(`utils/http-utils.js`): drop `null`/`undefined` values, URI-encode each
remaining key and value, and join with `&`. -/
def queryString (params : Params) : String :=
  joinSep "&" ((params.filter (fun p => p.2.isSome)).map encodePair)

/-- An HTTP request as issued by the `get` wrapper: final URL plus headers.
The `context`/`options` arguments only affect logging and are not modelled. -/
structure Request where
  url : String
  headers : List (String × String)

/-- Embeds the `get` wrapper of `utils/http-utils.js`, observed as the
request it issues. -/
def getRequest (host : String) (env : EnvVars) (path role : String) :
    Request :=
  ⟨getUrl host path, getHeaders env role⟩

/-- Embeds `getWithParams` from `utils/http-utils.js`: build the query
string, append it after `?` only when it is non-empty (JS string
truthiness), and delegate to `get`. -/
def getWithParams (host : String) (env : EnvVars) (path : String)
    (params : Params) (role : String) : Request :=
  let qs := queryString params
  let fullPath := if qs = "" then path else path ++ "?" ++ qs
  getRequest host env fullPath role

/-- An SLO record from `config/slo.js`: integer millisecond percentile
targets and a fractional error-rate ceiling. -/
structure EndpointSLO where
  p95 : Nat
  p99 : Nat
  errorRate : ℚ

/-- Rendering of a non-negative exact decimal fraction as JS renders the
corresponding double in a template literal (shortest form, e.g. `0.01`):
scale by the smallest power of ten clearing the denominator and print
integer and padded fractional digits.  Every error-rate literal in the
configuration is such a fraction. -/
def jsNumToString (q : ℚ) : String :=
  match (List.range 19).find? (fun k => 10 ^ k % q.den = 0) with
  | some k =>
      let scaled := q.num.toNat * (10 ^ k / q.den)
      if k = 0 then toString scaled
      else
        let fs := toString (scaled % 10 ^ k)
        toString (scaled / 10 ^ k) ++ "." ++
          String.mk (List.replicate (k - fs.length) (Char.ofNat 48)) ++ fs
  | none => ""

/-- Embeds `generateThresholds` from `config/slo.js`: a k6 thresholds object,
modelled as its key/value entries in insertion order. -/
def generateThresholds (slo : EndpointSLO) : List (String × List String) :=
  [("http_req_duration",
    ["p(95)<" ++ toString slo.p95, "p(99)<" ++ toString slo.p99]),
   ("http_req_failed", ["rate<" ++ jsNumToString slo.errorRate]),
   ("checks", ["rate>0.95"])]

/-- Embeds `generateScenarioThresholds` from `config/slo.js`: the duration
and error-rate bounds keyed by the tag filter `\x7btest_type:<testType>\x7d`. -/
def generateScenarioThresholds (slo : EndpointSLO) (testType : String) :
    List (String × List String) :=
  [("http_req_duration\x7btest_type:" ++ testType ++ "\x7d",
    ["p(95)<" ++ toString slo.p95, "p(99)<" ++ toString slo.p99]),
   ("http_req_failed\x7btest_type:" ++ testType ++ "\x7d",
    ["rate<" ++ jsNumToString slo.errorRate])]

/-- The ThresholdSet that claim C8 describes, written from the claim's own
words for comparison: exactly the p95 and p99 bounds on `http_req_duration`
and the error-rate bound on `http_req_failed`, and nothing else. -/
def claimedThresholdSet (slo : EndpointSLO) : List (String × List String) :=
  [("http_req_duration",
    ["p(95)<" ++ toString slo.p95, "p(99)<" ++ toString slo.p99]),
   ("http_req_failed", ["rate<" ++ jsNumToString slo.errorRate])]

/-- The valid load-profile names of `config/env.js`. -/
inductive ProfileName where
  | SMOKE
  | LIGHT
  | MEDIUM
  | HEAVY
deriving DecidableEq

/-- A load profile from `config/env.js`. -/
structure LoadProfile where
  vus : Nat
  duration : String
  description : String

/-- Embeds the `LOAD_PROFILES` table of `config/env.js`. -/
def LOAD_PROFILES : ProfileName → LoadProfile
  | .SMOKE => ⟨1, "30s", "Quick sanity check"⟩
  | .LIGHT => ⟨10, "60s", "Daily CI/CD, quick validation"⟩
  | .MEDIUM => ⟨30, "5m", "Weekly regression, pre-release"⟩
  | .HEAVY => ⟨100, "10m", "Monthly stress testing, capacity planning"⟩

/-- A non-negative dyadic rational `num / 2 ^ exp`; every finite
non-negative IEEE-754 double is one, and these model JS numbers exactly. -/
structure Dyadic where
  num : Nat
  exp : Nat
deriving DecidableEq

/-- Fuel-indexed floor of the base-2 logarithm (`log2f fuel n = ⌊log₂ n⌋`
whenever `n < 2 ^ fuel`; `log2f fuel 0 = 0`). -/
def log2f : Nat → Nat → Nat
  | 0, _ => 0
  | fuel + 1, n => if n < 2 then 0 else log2f fuel (n / 2) + 1

/-- Floor of the base-2 logarithm of the positive rational `a / b`,
computed by scaling with `2 ^ 300` (exact for `2 ^ (-300) ≤ a / b < 2 ^ 100`,
which covers every value arising below). -/
def floorLog2Rat (a b : Nat) : Int :=
  (log2f 400 (a * 2 ^ 300 / b) : Int) - 300

/-- Round the fraction `n / d` (with `d > 0`) to the nearest integer,
ties to even. -/
def roundHalfEven (n d : Nat) : Nat :=
  let q := n / d
  let r := n % d
  if 2 * r < d then q
  else if 2 * r > d then q + 1
  else if q % 2 = 0 then q else q + 1

/-- Round the positive rational `a / b` to the nearest IEEE-754 double
(round-to-nearest, ties to even), assuming the normal range: the significand
is the 53-bit rounding of `a / b` scaled to `[2 ^ 52, 2 ^ 53)`. -/
def roundToDouble (a b : Nat) : Dyadic :=
  let t : Int := 52 - floorLog2Rat a b
  if 0 ≤ t then ⟨roundHalfEven (a * 2 ^ t.toNat) b, t.toNat⟩
  else ⟨roundHalfEven a (b * 2 ^ (-t).toNat) * 2 ^ (-t).toNat, 0⟩

/-- IEEE-754 double multiplication of two non-negative doubles: the exact
product, rounded back to a double. -/
def jsMulD (x y : Dyadic) : Dyadic :=
  roundToDouble (x.num * y.num) (2 ^ (x.exp + y.exp))

/-- A small natural number seen as a double (exact below `2 ^ 53`). -/
def natToD (v : Nat) : Dyadic :=
  ⟨v, 0⟩

/-- `Math.ceil` of a non-negative double. -/
def jsCeil (d : Dyadic) : Nat :=
  (d.num + 2 ^ d.exp - 1) / 2 ^ d.exp

/-- The double denoted by the literal `0.7`. -/
def lit07 : Dyadic := roundToDouble 7 10

/-- The double denoted by the literal `0.2`. -/
def lit02 : Dyadic := roundToDouble 2 10

/-- The double denoted by the literal `0.1`. -/
def lit01 : Dyadic := roundToDouble 1 10

/-- VU count of the `get_list` scenario in `run-all.js`:
`Math.ceil(vus * 0.7)`. -/
def getListVus (vus : Nat) : Nat :=
  jsCeil (jsMulD (natToD vus) lit07)

/-- VU count of the `get_details` scenario in `run-all.js`:
`Math.ceil(vus * 0.2)`. -/
def getDetailsVus (vus : Nat) : Nat :=
  jsCeil (jsMulD (natToD vus) lit02)

/-- VU count of the `create` scenario in `run-all.js`:
`Math.ceil(vus * 0.1) || 1` (the `|| 1` replaces a falsy `0`). -/
def createVus (vus : Nat) : Nat :=
  let c := jsCeil (jsMulD (natToD vus) lit01)
  if c = 0 then 1 else c

/-- Total VUs declared across the three weighted scenarios of `run-all.js`. -/
def scenarioVusSum (vus : Nat) : Nat :=
  getListVus vus + getDetailsVus vus + createVus vus

/-- C1: in the CRUD flow's default iteration function, if the CREATE step
fails (`createResource` returns `success = false`), then `readResource`,
`updateResource`, `deleteResource` and `verifyDeleted` are never invoked in
that iteration, and the flow is recorded as failed: `fullFlowFailed` is
incremented exactly once and `fullFlowSuccess` is not incremented. -/
theorem C1_create_failure_aborts (env : CrudEnv)
    (h : is2xx env.createRes.status = false) :
    (crudDefault env).readCalls = 0 ∧ (crudDefault env).updateCalls = 0 ∧
    (crudDefault env).deleteCalls = 0 ∧ (crudDefault env).verifyCalls = 0 ∧
    (crudDefault env).fullFlowFailed = 1 ∧
    (crudDefault env).fullFlowSuccess = 0 := by
  simp [crudDefault, createResource, FlowCounters.init, h]

/-- Witness for C1 at a CREATE that fails with status 500. -/
theorem C1_witness :
    is2xx 500 = false ∧
    ((crudDefault ⟨⟨500, none⟩, ⟨200, none⟩, ⟨200, none⟩, ⟨200, none⟩,
        ⟨200, none⟩, ⟨404, none⟩⟩).readCalls = 0 ∧
     (crudDefault ⟨⟨500, none⟩, ⟨200, none⟩, ⟨200, none⟩, ⟨200, none⟩,
        ⟨200, none⟩, ⟨404, none⟩⟩).updateCalls = 0 ∧
     (crudDefault ⟨⟨500, none⟩, ⟨200, none⟩, ⟨200, none⟩, ⟨200, none⟩,
        ⟨200, none⟩, ⟨404, none⟩⟩).deleteCalls = 0 ∧
     (crudDefault ⟨⟨500, none⟩, ⟨200, none⟩, ⟨200, none⟩, ⟨200, none⟩,
        ⟨200, none⟩, ⟨404, none⟩⟩).verifyCalls = 0 ∧
     (crudDefault ⟨⟨500, none⟩, ⟨200, none⟩, ⟨200, none⟩, ⟨200, none⟩,
        ⟨200, none⟩, ⟨404, none⟩⟩).fullFlowFailed = 1 ∧
     (crudDefault ⟨⟨500, none⟩, ⟨200, none⟩, ⟨200, none⟩, ⟨200, none⟩,
        ⟨200, none⟩, ⟨404, none⟩⟩).fullFlowSuccess = 0) :=
  ⟨by decide, C1_create_failure_aborts _ (by decide)⟩

/-- C5: in one CRUD flow iteration in which CREATE, READ, UPDATE, the
verification READ, DELETE and VERIFY_DELETED all succeed, the flow is
recorded as successful exactly once: `fullFlowSuccess` is incremented by
exactly 1 and `fullFlowFailed` is not incremented. -/
theorem C5_all_steps_succeed (env : CrudEnv) (h : flowAllOk env = true) :
    (crudDefault env).fullFlowSuccess = 1 ∧
    (crudDefault env).fullFlowFailed = 0 := by
  simp only [flowAllOk, Bool.and_eq_true] at h
  obtain ⟨⟨⟨⟨⟨⟨hc, hid⟩, hr⟩, hu⟩, hv⟩, hd⟩, hvd⟩ := h
  simp [crudDefault, createResource, readResource, updateResource,
    deleteResource, verifyDeleted, FlowCounters.init, jsOr,
    hc, hid, hr, hu, hv, hd, hvd]

/-- Witness for C5 at an iteration where every response is favourable. -/
theorem C5_witness :
    flowAllOk ⟨⟨201, some (.obj [("id", .num 7)])⟩, ⟨200, none⟩, ⟨200, none⟩,
      ⟨200, none⟩, ⟨204, none⟩, ⟨404, none⟩⟩ = true ∧
    (crudDefault ⟨⟨201, some (.obj [("id", .num 7)])⟩, ⟨200, none⟩,
       ⟨200, none⟩, ⟨200, none⟩, ⟨204, none⟩,
       ⟨404, none⟩⟩).fullFlowSuccess = 1 ∧
    (crudDefault ⟨⟨201, some (.obj [("id", .num 7)])⟩, ⟨200, none⟩,
       ⟨200, none⟩, ⟨200, none⟩, ⟨204, none⟩,
       ⟨404, none⟩⟩).fullFlowFailed = 0 :=
  ⟨by decide, C5_all_steps_succeed _ (by decide)⟩

/-- C3: `verifyDeleted` reports deletion exactly when the post-delete GET
returns 404, and if that GET instead returns a 2xx status in an iteration
whose CREATE succeeded, the flow is recorded as failed (`fullFlowFailed`
incremented once, `fullFlowSuccess` not at all) regardless of the DELETE
call's own reported status. -/
theorem C3_verify_deleted_404 (env : CrudEnv)
    (h : is2xx env.createRes.status = true)
    (h2 : is2xx env.verifyDeleteRes.status = true) :
    (∀ id res t, ((verifyDeleted id res t).1 = true ↔ res.status = 404)) ∧
    (crudDefault env).verifyCalls = 1 ∧
    (crudDefault env).fullFlowFailed = 1 ∧
    (crudDefault env).fullFlowSuccess = 0 := by
  have h404 : env.verifyDeleteRes.status ≠ 404 := by
    simp only [is2xx, decide_eq_true_eq] at h2
    omega
  refine ⟨fun id res t => by simp [verifyDeleted], ?_⟩
  cases hid : jsTruthyOpt (extractId env.createRes "id") <;>
    simp [crudDefault, createResource, readResource, updateResource,
      deleteResource, verifyDeleted, FlowCounters.init, jsOr, h, hid, h404]

/-- Witness for C3 at a post-delete GET that wrongly answers 200. -/
theorem C3_witness :
    is2xx 201 = true ∧ is2xx 200 = true ∧
    ((crudDefault ⟨⟨201, some (.obj [("id", .num 7)])⟩, ⟨200, none⟩,
        ⟨200, none⟩, ⟨200, none⟩, ⟨204, none⟩, ⟨200, none⟩⟩).verifyCalls = 1 ∧
     (crudDefault ⟨⟨201, some (.obj [("id", .num 7)])⟩, ⟨200, none⟩,
        ⟨200, none⟩, ⟨200, none⟩, ⟨204, none⟩,
        ⟨200, none⟩⟩).fullFlowFailed = 1 ∧
     (crudDefault ⟨⟨201, some (.obj [("id", .num 7)])⟩, ⟨200, none⟩,
        ⟨200, none⟩, ⟨200, none⟩, ⟨204, none⟩,
        ⟨200, none⟩⟩).fullFlowSuccess = 0) :=
  ⟨by decide, by decide,
   ((C3_verify_deleted_404 _ (by decide) (by decide)).2)⟩

/-- An iteration whose CREATE succeeds with status 201 but whose response
body `\x7b\x7d` carries no `id`: the extracted id is `undefined`, so READ,
UPDATE and DELETE all run (and fail) on a falsy id. -/
def c4CexEnv : CrudEnv :=
  ⟨⟨201, some (.obj [])⟩, ⟨200, some (.obj [("id", .num 1)])⟩,
   ⟨200, some (.obj [])⟩, ⟨200, some (.obj [])⟩, ⟨200, some (.obj [])⟩,
   ⟨404, none⟩⟩

/-- Counterexample to C4 as stated: in `c4CexEnv` the READ step is invoked
(twice) and fails, the flow continues to DELETE and VERIFY as the claim
says, but `crud_read_count`/`crud_read_duration` (and likewise the update
and delete metrics) are NOT incremented, because `readResource`,
`updateResource` and `deleteResource` return early on a falsy id before
touching their metrics — refuting "each step unconditionally increments its
own duration and count metrics". -/
theorem C4_counterexample :
    (crudDefault c4CexEnv).readCalls = 2 ∧
    (crudDefault c4CexEnv).updateCalls = 1 ∧
    (crudDefault c4CexEnv).deleteCalls = 1 ∧
    (crudDefault c4CexEnv).verifyCalls = 1 ∧
    (crudDefault c4CexEnv).readCount = 0 ∧
    (crudDefault c4CexEnv).readDur = 0 ∧
    (crudDefault c4CexEnv).updateCount = 0 ∧
    (crudDefault c4CexEnv).deleteCount = 0 := by
  decide

/-- C4 (amended): once CREATE has succeeded, no later step failure aborts
the iteration — READ runs twice, UPDATE, DELETE and the VERIFY GET once
each, whatever the statuses; each of these steps increments its duration
and count metrics on every invocation PROVIDED the CREATE response yielded
a truthy id (when the id is falsy they return failure without touching
their metrics); and whenever any step fails the iteration is recorded as a
failed flow. -/
theorem crudDefault_create2xx_truthyId (env : CrudEnv)
    (h : is2xx env.createRes.status = true)
    (hid : jsTruthyOpt (extractId env.createRes "id") = true) :
    crudDefault env =
      { createCount := 1, createDur := 1, readCount := 2, readDur := 2,
        updateCount := 1, updateDur := 1, deleteCount := 1, deleteDur := 1,
        successRate := [true, decide (env.readRes.status = 200),
          is2xx env.updateRes.status,
          decide (env.verifyReadRes.status = 200),
          is2xx env.deleteRes.status],
        fullFlowSuccess :=
          if decide (env.readRes.status = 200) &&
             is2xx env.updateRes.status &&
             decide (env.verifyReadRes.status = 200) &&
             is2xx env.deleteRes.status &&
             decide (env.verifyDeleteRes.status = 404) then 1 else 0,
        fullFlowFailed :=
          if decide (env.readRes.status = 200) &&
             is2xx env.updateRes.status &&
             decide (env.verifyReadRes.status = 200) &&
             is2xx env.deleteRes.status &&
             decide (env.verifyDeleteRes.status = 404) then 0 else 1,
        createCalls := 1, readCalls := 2, updateCalls := 1,
        deleteCalls := 1, verifyCalls := 1 } := by
  cases hr : decide (env.readRes.status = 200) <;>
  cases hu : is2xx env.updateRes.status <;>
  cases hv : decide (env.verifyReadRes.status = 200) <;>
  cases hd : is2xx env.deleteRes.status <;>
  cases hvd : decide (env.verifyDeleteRes.status = 404) <;>
  simp [crudDefault, createResource, readResource, updateResource,
    deleteResource, verifyDeleted, FlowCounters.init, jsOr, h, hid,
    hr, hu, hv, hd, hvd]

theorem crudDefault_create2xx_falsyId (env : CrudEnv)
    (h : is2xx env.createRes.status = true)
    (hid : jsTruthyOpt (extractId env.createRes "id") = false) :
    crudDefault env =
      { createCount := 1, createDur := 1, readCount := 0, readDur := 0,
        updateCount := 0, updateDur := 0, deleteCount := 0, deleteDur := 0,
        successRate := [true], fullFlowSuccess := 0, fullFlowFailed := 1,
        createCalls := 1, readCalls := 2, updateCalls := 1,
        deleteCalls := 1, verifyCalls := 1 } := by
  simp [crudDefault, createResource, readResource, updateResource,
    deleteResource, verifyDeleted, FlowCounters.init, jsOr, h, hid]

/-- C4 (amended): once CREATE has succeeded, no later step failure aborts
the iteration — READ runs twice, UPDATE, DELETE and the VERIFY GET once
each, whatever the statuses; each of these steps increments its duration
and count metrics on every invocation PROVIDED the CREATE response yielded
a truthy id (when the id is falsy they return failure without touching
their metrics); and whenever any step fails the iteration is recorded as a
failed flow. -/
theorem C4_post_create_no_abort (env : CrudEnv)
    (h : is2xx env.createRes.status = true) :
    ((crudDefault env).readCalls = 2 ∧ (crudDefault env).updateCalls = 1 ∧
     (crudDefault env).deleteCalls = 1 ∧ (crudDefault env).verifyCalls = 1) ∧
    (jsTruthyOpt (extractId env.createRes "id") = true →
      (crudDefault env).readCount = 2 ∧ (crudDefault env).readDur = 2 ∧
      (crudDefault env).updateCount = 1 ∧ (crudDefault env).updateDur = 1 ∧
      (crudDefault env).deleteCount = 1 ∧ (crudDefault env).deleteDur = 1) ∧
    (jsTruthyOpt (extractId env.createRes "id") = false →
      (crudDefault env).readCount = 0 ∧ (crudDefault env).updateCount = 0 ∧
      (crudDefault env).deleteCount = 0) ∧
    (flowAllOk env = false →
      (crudDefault env).fullFlowFailed = 1 ∧
      (crudDefault env).fullFlowSuccess = 0) := by
  cases hid : jsTruthyOpt (extractId env.createRes "id")
  · rw [crudDefault_create2xx_falsyId env h hid]
    refine ⟨⟨rfl, rfl, rfl, rfl⟩, fun htr => absurd htr (by decide),
      fun _ => ⟨rfl, rfl, rfl⟩, fun _ => ⟨rfl, rfl⟩⟩
  · rw [crudDefault_create2xx_truthyId env h hid]
    refine ⟨⟨rfl, rfl, rfl, rfl⟩,
      fun _ => ⟨rfl, rfl, rfl, rfl, rfl, rfl⟩,
      fun hfl => absurd hfl (by decide), fun hfa => ?_⟩
    simp only [flowAllOk, h, hid, Bool.true_and] at hfa
    simp [hfa]

/-- Witness for C4 (amended) at an iteration whose UPDATE fails with 500
after a successful CREATE with a truthy id. -/
theorem C4_witness :
    is2xx 201 = true ∧
    (((crudDefault ⟨⟨201, some (.obj [("id", .num 7)])⟩, ⟨200, none⟩,
         ⟨500, none⟩, ⟨200, none⟩, ⟨204, none⟩,
         ⟨404, none⟩⟩).readCalls = 2 ∧
      (crudDefault ⟨⟨201, some (.obj [("id", .num 7)])⟩, ⟨200, none⟩,
         ⟨500, none⟩, ⟨200, none⟩, ⟨204, none⟩,
         ⟨404, none⟩⟩).updateCalls = 1 ∧
      (crudDefault ⟨⟨201, some (.obj [("id", .num 7)])⟩, ⟨200, none⟩,
         ⟨500, none⟩, ⟨200, none⟩, ⟨204, none⟩,
         ⟨404, none⟩⟩).deleteCalls = 1 ∧
      (crudDefault ⟨⟨201, some (.obj [("id", .num 7)])⟩, ⟨200, none⟩,
         ⟨500, none⟩, ⟨200, none⟩, ⟨204, none⟩,
         ⟨404, none⟩⟩).verifyCalls = 1) ∧
     ((crudDefault ⟨⟨201, some (.obj [("id", .num 7)])⟩, ⟨200, none⟩,
         ⟨500, none⟩, ⟨200, none⟩, ⟨204, none⟩,
         ⟨404, none⟩⟩).readCount = 2 ∧
      (crudDefault ⟨⟨201, some (.obj [("id", .num 7)])⟩, ⟨200, none⟩,
         ⟨500, none⟩, ⟨200, none⟩, ⟨204, none⟩,
         ⟨404, none⟩⟩).readDur = 2 ∧
      (crudDefault ⟨⟨201, some (.obj [("id", .num 7)])⟩, ⟨200, none⟩,
         ⟨500, none⟩, ⟨200, none⟩, ⟨204, none⟩,
         ⟨404, none⟩⟩).updateCount = 1 ∧
      (crudDefault ⟨⟨201, some (.obj [("id", .num 7)])⟩, ⟨200, none⟩,
         ⟨500, none⟩, ⟨200, none⟩, ⟨204, none⟩,
         ⟨404, none⟩⟩).updateDur = 1 ∧
      (crudDefault ⟨⟨201, some (.obj [("id", .num 7)])⟩, ⟨200, none⟩,
         ⟨500, none⟩, ⟨200, none⟩, ⟨204, none⟩,
         ⟨404, none⟩⟩).deleteCount = 1 ∧
      (crudDefault ⟨⟨201, some (.obj [("id", .num 7)])⟩, ⟨200, none⟩,
         ⟨500, none⟩, ⟨200, none⟩, ⟨204, none⟩,
         ⟨404, none⟩⟩).deleteDur = 1) ∧
     ((crudDefault ⟨⟨201, some (.obj [("id", .num 7)])⟩, ⟨200, none⟩,
         ⟨500, none⟩, ⟨200, none⟩, ⟨204, none⟩,
         ⟨404, none⟩⟩).fullFlowFailed = 1 ∧
      (crudDefault ⟨⟨201, some (.obj [("id", .num 7)])⟩, ⟨200, none⟩,
         ⟨500, none⟩, ⟨200, none⟩, ⟨204, none⟩,
         ⟨404, none⟩⟩).fullFlowSuccess = 0)) :=
  have h := C4_post_create_no_abort
    ⟨⟨201, some (.obj [("id", .num 7)])⟩, ⟨200, none⟩, ⟨500, none⟩,
     ⟨200, none⟩, ⟨204, none⟩, ⟨404, none⟩⟩ (by decide)
  ⟨by decide, h.1, h.2.1 (by decide), h.2.2.2 (by decide)⟩

/-- C6: for every response whose body is not valid JSON (`res.json()`
throws), each structural validator — `checkListResponse`,
`checkItemResponse`, `checkFieldTypes`, `checkListItemStructure` — returns
`false` (the caught exception is converted to a boolean, not propagated),
for every choice of the other arguments. -/
theorem C6_invalid_json_yields_false (res : Response) (context : String)
    (requiredFields : List String) (fieldTypes : List (String × String))
    (itemValidator : JsonVal → Bool) (h : res.jsonBody = none) :
    (checkListResponse res context).1 = false ∧
    (checkItemResponse res requiredFields context).1 = false ∧
    (checkFieldTypes res fieldTypes context).1 = false ∧
    (checkListItemStructure res itemValidator context).1 = false := by
  simp [checkListResponse, checkItemResponse, checkFieldTypes,
    checkListItemStructure, h]

/-- Witness for C6 at a 200 response with a non-JSON body. -/
theorem C6_witness :
    (Response.mk 200 none).jsonBody = none ∧
    ((checkListResponse ⟨200, none⟩ "list").1 = false ∧
     (checkItemResponse ⟨200, none⟩ ["id"] "item").1 = false ∧
     (checkFieldTypes ⟨200, none⟩ [("id", "number")] "response").1 = false ∧
     (checkListItemStructure ⟨200, none⟩ (fun _ => true) "list-item").1 =
       false) :=
  ⟨rfl, C6_invalid_json_yields_false ⟨200, none⟩ "list" ["id"]
    [("id", "number")] (fun _ => true) rfl⟩

/-- C7: for a response with status 200 and body
`\x7b"items": []\x7d`, `checkGetListEndpoint` records the status check as
passing and the "items not empty" structure check as failing (the "has
items array" and "valid page size" checks pass), with overall result
`false`: the failing structure check does not suppress or alter the status
check's recorded result. -/
theorem C7_empty_items_list :
    checkGetListEndpoint ⟨200, some (.obj [("items", .arr [])])⟩ none "list" =
      (false,
       [("status is 200", true),
        ("list: has items array", true),
        ("list: items not empty", false),
        ("list: valid page size", true)]) := by
  decide

set_option maxRecDepth 8000 in
/-- Counterexample to C2 as stated: for the valid profile name SMOKE
(1 VU), each of the three scenario allocations ceils to 1, so their sum is
3 and exceeds the base profile's single VU. -/
theorem C2_counterexample :
    ¬ (scenarioVusSum (LOAD_PROFILES .SMOKE).vus ≤
        (LOAD_PROFILES .SMOKE).vus) := by
  decide

set_option maxRecDepth 8000 in
/-- C2 (amended): the create scenario's VU count is at least 1 for every
valid profile, and for every valid profile except SMOKE the three weighted
scenario VU counts sum to at most the base profile's `vus` value (for SMOKE
they sum to 3 against a base of 1). -/
theorem C2_vu_allocation (p : ProfileName) :
    1 ≤ createVus (LOAD_PROFILES p).vus ∧
    (p ≠ .SMOKE →
      scenarioVusSum (LOAD_PROFILES p).vus ≤ (LOAD_PROFILES p).vus) := by
  cases p
  case SMOKE => exact ⟨by decide, fun hne => absurd rfl hne⟩
  case LIGHT => exact ⟨by decide, fun _ => by decide⟩
  case MEDIUM => exact ⟨by decide, fun _ => by decide⟩
  case HEAVY => exact ⟨by decide, fun _ => by decide⟩

set_option maxRecDepth 8000 in
/-- Witness for C2 (amended) at the HEAVY profile. -/
theorem C2_witness :
    (ProfileName.HEAVY ≠ ProfileName.SMOKE) ∧
    1 ≤ createVus (LOAD_PROFILES .HEAVY).vus ∧
    scenarioVusSum (LOAD_PROFILES .HEAVY).vus ≤ (LOAD_PROFILES .HEAVY).vus :=
  ⟨by decide, (C2_vu_allocation .HEAVY).1,
   (C2_vu_allocation .HEAVY).2 (by decide)⟩

/-- Counterexample to C8 as stated: `generateThresholds` does not return
exactly the three claimed bounds — for the products-list SLO (p95 300,
p99 800, error rate 0.01) its result additionally carries a fixed check
pass-rate entry `checks: rate>0.95`, so it differs from the claimed
ThresholdSet. -/
theorem C8_counterexample :
    generateThresholds ⟨300, 800, 1/100⟩ ≠
      claimedThresholdSet ⟨300, 800, 1/100⟩ := by
  simp [generateThresholds, claimedThresholdSet]

/-- C8 (amended): for every SLO record, `generateThresholds` returns the
claimed p95/p99 duration bounds and error-rate bound PLUS a fixed check
pass-rate bound `checks: rate>0.95`; and `generateScenarioThresholds`
produces exactly the claimed duration and error-rate bounds with each
metric key scoped by the tag expression `\x7btest_type:<testType>\x7d`. -/
theorem C8_threshold_generation (slo : EndpointSLO) (testType : String) :
    generateThresholds slo =
      claimedThresholdSet slo ++ [("checks", ["rate>0.95"])] ∧
    generateScenarioThresholds slo testType =
      (claimedThresholdSet slo).map
        (fun e => (e.1 ++ "\x7btest_type:" ++ testType ++ "\x7d", e.2)) := by
  refine ⟨rfl, ?_⟩
  simp [generateScenarioThresholds, claimedThresholdSet]

/-- C9: for every role name other than USER, ADMIN and SUPER_USER, the
token lookup yields `undefined` and `getHeaders` still totally returns a
header set (no error is raised, no validation of role names), whose
Authorization value is the literal `Bearer undefined` — no configured
bearer credential. -/
theorem C9_unknown_role (env : EnvVars) (role : String)
    (h1 : role ≠ "USER") (h2 : role ≠ "ADMIN") (h3 : role ≠ "SUPER_USER") :
    TOKENS env role = none ∧
    getHeaders env role =
      [("Accept", "application/json"),
       ("Content-Type", "application/json"),
       ("Authorization", "Bearer undefined")] := by
  have ht : TOKENS env role = none := by
    simp [TOKENS, h1, h2, h3]
  exact ⟨ht, by simp [getHeaders, ht, jsTemplateStr]⟩

/-- Witness for C9 at the unknown role name GUEST. -/
theorem C9_witness :
    ("GUEST" ≠ "USER" ∧ "GUEST" ≠ "ADMIN" ∧ "GUEST" ≠ "SUPER_USER") ∧
    TOKENS ⟨none, none, none⟩ "GUEST" = none ∧
    getHeaders ⟨none, none, none⟩ "GUEST" =
      [("Accept", "application/json"),
       ("Content-Type", "application/json"),
       ("Authorization", "Bearer undefined")] :=
  ⟨by decide,
   C9_unknown_role ⟨none, none, none⟩ "GUEST" (by decide) (by decide)
     (by decide)⟩

theorem encodePair_length_pos (p : String × Option String) :
    0 < (encodePair p).length := by
  have h : ("=" : String).length = 1 := rfl
  simp only [encodePair, String.length_append, h]
  omega

theorem joinSep_cons_length_pos (sep x : String) (xs : List String)
    (hx : 0 < x.length) : 0 < (joinSep sep (x :: xs)).length := by
  cases xs with
  | nil => simpa [joinSep] using hx
  | cons y ys =>
      simp only [joinSep, String.length_append]
      omega

theorem queryString_ne_empty (params : Params) (x : String × Option String)
    (xs : List (String × Option String))
    (h : params.filter (fun p => p.2.isSome) = x :: xs) :
    queryString params ≠ "" := by
  intro hq
  have hlen : 0 < (queryString params).length := by
    rw [queryString, h, List.map_cons]
    exact joinSep_cons_length_pos "&" _ _ (encodePair_length_pos x)
  rw [hq] at hlen
  simp at hlen

/-- C10: `getWithParams` omits every parameter whose value is null or
undefined from the query string (the request is the one for the filtered
parameter list), issues the GET on the bare path with no `?` appended when
no parameter survives the filter, and otherwise appends `?` followed by the
URI-encoded `key=value` pairs of the surviving parameters joined with `&`. -/
theorem C10_getWithParams (host : String) (env : EnvVars) (path : String)
    (params : Params) (role : String) :
    getWithParams host env path params role =
      getWithParams host env path (params.filter (fun p => p.2.isSome))
        role ∧
    (params.filter (fun p => p.2.isSome) = [] →
      getWithParams host env path params role =
        getRequest host env path role) ∧
    (∀ x xs, params.filter (fun p => p.2.isSome) = x :: xs →
      (getWithParams host env path params role).url =
        getUrl host (path ++ "?" ++
          joinSep "&" (encodePair x :: xs.map encodePair))) := by
  refine ⟨?_, ?_, ?_⟩
  · simp only [getWithParams, queryString, List.filter_filter,
      Bool.and_self]
  · intro h
    simp [getWithParams, queryString, h, joinSep]
  · intro x xs h
    have hne := queryString_ne_empty params x xs h
    simp only [getWithParams, getRequest, if_neg hne]
    rw [queryString, h, List.map_cons]

/-- Witness for C10 on `/products` with a kept `pageNumber=1` parameter and
a dropped null `search` parameter. -/
theorem C10_witness :
    (getWithParams "https://api-dev.example.com" ⟨none, none, none⟩
       "/products" [("pageNumber", some "1"), ("search", none)] "USER" =
     getWithParams "https://api-dev.example.com" ⟨none, none, none⟩
       "/products"
       ([("pageNumber", some "1"), ("search", none)].filter
         (fun p => p.2.isSome)) "USER") ∧
    (getWithParams "https://api-dev.example.com" ⟨none, none, none⟩
       "/products" [("search", none)] "USER" =
     getRequest "https://api-dev.example.com" ⟨none, none, none⟩
       "/products" "USER") ∧
    (getWithParams "https://api-dev.example.com" ⟨none, none, none⟩
       "/products" [("pageNumber", some "1"), ("search", none)]
       "USER").url =
      "https://api-dev.example.com/products?pageNumber=1" :=
  ⟨(C10_getWithParams "https://api-dev.example.com" ⟨none, none, none⟩
      "/products" [("pageNumber", some "1"), ("search", none)] "USER").1,
   (C10_getWithParams "https://api-dev.example.com" ⟨none, none, none⟩
      "/products" [("search", none)] "USER").2.1 (by decide),
   ((C10_getWithParams "https://api-dev.example.com" ⟨none, none, none⟩
      "/products" [("pageNumber", some "1"), ("search", none)]
      "USER").2.2 ("pageNumber", some "1") [] (by decide)).trans
     (by decide)⟩

end K6Spec
